import Mathlib

/-!
Verification of the Array-Simulation PV cell models and MPPT engine.

The definitions below are a shallow embedding of the Python sources under
ArraySimulation/: each Lean definition mirrors one Python method, with
machine floats modelled as real numbers and fallible operations modelled
with Option.  The base class PVCell (which only supplies the calibrated
cell constants and the MAX_VOLTAGE / MIN_RESOLUTION bounds) and the Lookup
table class are not part of the provided sources, so their contributions
are modelled from the spec as explicit parameters.
-/

/-- Modelled from the spec: the PVCell base class that defines the calibrated
cell constants (reference irradiance, reference temperature, reference
short-circuit current, reference open-circuit voltage, series resistance,
shunt resistance, Boltzmann constant, elementary charge) and the curve
bounds MAX_VOLTAGE and MIN_RESOLUTION is not among the provided sources;
the spec names these parameters but gives no numeric values, so they are
carried as a parameter record. -/
structure CellConsts where
  refIrrad : ℝ
  refTemp : ℝ
  refSCCurrent : ℝ
  refOCVoltage : ℝ
  rSeries : ℝ
  rShunt : ℝ
  k : ℝ
  q : ℝ
  MAX_VOLTAGE : ℝ
  MIN_RESOLUTION : ℝ

/-- Embedding of PVCellIdeal.getCurrent (PVCellIdeal.py, lines 29-72).
The two `if` tests are the source's zero-input clamps; `Real.log` stands
for numpy's log and `Real.exp` for math.exp. -/
noncomputable def PVCellIdeal.getCurrent (C : CellConsts)
    (voltage irradiance temperature : ℝ) : ℝ :=
  let cellTemperature := temperature + 273.15
  let voltage := if voltage = 0 then 0.001 else voltage
  let irradiance := if irradiance = 0 then 0.001 else irradiance
  let SCCurrent :=
    irradiance / C.refIrrad * C.refSCCurrent
      * (1 + 6e-4 * (cellTemperature - C.refTemp))
  let OCVoltage :=
    C.refOCVoltage - 2.2e-3 * (cellTemperature - C.refTemp)
      + C.k * cellTemperature / C.q * Real.log (irradiance / C.refIrrad)
  let PVCurrent := SCCurrent
  let revSatCurrent :=
    Real.exp (Real.log SCCurrent - C.q * OCVoltage / (C.k * cellTemperature))
  let diodeCurrent :=
    revSatCurrent * (Real.exp (C.q * voltage / (C.k * cellTemperature)) - 1)
  PVCurrent - diodeCurrent

/-- The body of PVCellIdeal.getCurrent after the two zero-input clamps:
identical to PVCellIdeal.getCurrent except that the inputs are used as
given.  Used to state that the computation factors through the clamps. -/
noncomputable def PVCellIdeal.getCurrentBody (C : CellConsts)
    (voltage irradiance temperature : ℝ) : ℝ :=
  let cellTemperature := temperature + 273.15
  let SCCurrent :=
    irradiance / C.refIrrad * C.refSCCurrent
      * (1 + 6e-4 * (cellTemperature - C.refTemp))
  let OCVoltage :=
    C.refOCVoltage - 2.2e-3 * (cellTemperature - C.refTemp)
      + C.k * cellTemperature / C.q * Real.log (irradiance / C.refIrrad)
  let PVCurrent := SCCurrent
  let revSatCurrent :=
    Real.exp (Real.log SCCurrent - C.q * OCVoltage / (C.k * cellTemperature))
  let diodeCurrent :=
    revSatCurrent * (Real.exp (C.q * voltage / (C.k * cellTemperature)) - 1)
  PVCurrent - diodeCurrent

/-- The squared residual examined by the PVCellNonideal.getCurrent solver
loop (PVCellNonideal.py, lines 36-114) at candidate number `j`, that is at
candidate current `j * 0.001` (the loop starts the candidate at 0 and adds
0.001 once per iteration).  The surrounding derivation (clamps, short
circuit current, open circuit voltage, reverse saturation current) is the
source's, evaluated once per call and shared by every candidate. -/
noncomputable def PVCellNonideal.residual (C : CellConsts)
    (voltage irradiance temperature : ℝ) (j : ℕ) : ℝ :=
  let cellTemperature := temperature + 273.15
  let voltage := if voltage = 0 then 0.001 else voltage
  let irradiance := if irradiance = 0 then 0.001 else irradiance
  let SCCurrent :=
    irradiance / C.refIrrad * C.refSCCurrent
      * (1 + 6e-4 * (cellTemperature - C.refTemp))
  let OCVoltage :=
    C.refOCVoltage - 2.2e-3 * (cellTemperature - C.refTemp)
      + C.k * cellTemperature / C.q * Real.log (irradiance / C.refIrrad)
  let PVCurrent := SCCurrent
  let revSatCurrent :=
    Real.exp (Real.log SCCurrent - C.q * OCVoltage / (C.k * cellTemperature))
  let currentPrediction := (j : ℝ) * 0.001
  let left := currentPrediction
  let diodeCurrent :=
    revSatCurrent
      * (Real.exp (C.q * (voltage + currentPrediction + C.rSeries)
          / (C.k * cellTemperature)) - 1)
      - (voltage + currentPrediction * C.rSeries) / C.rShunt
  let right := PVCurrent - diodeCurrent
  (left - right) ^ 2

/-- The residual of the Nonideal solver with the two zero-input clamps
stripped (inputs used as given); companion of PVCellNonideal.residual for
stating the clamping property. -/
noncomputable def PVCellNonideal.residualBody (C : CellConsts)
    (voltage irradiance temperature : ℝ) (j : ℕ) : ℝ :=
  let cellTemperature := temperature + 273.15
  let SCCurrent :=
    irradiance / C.refIrrad * C.refSCCurrent
      * (1 + 6e-4 * (cellTemperature - C.refTemp))
  let OCVoltage :=
    C.refOCVoltage - 2.2e-3 * (cellTemperature - C.refTemp)
      + C.k * cellTemperature / C.q * Real.log (irradiance / C.refIrrad)
  let PVCurrent := SCCurrent
  let revSatCurrent :=
    Real.exp (Real.log SCCurrent - C.q * OCVoltage / (C.k * cellTemperature))
  let currentPrediction := (j : ℝ) * 0.001
  let left := currentPrediction
  let diodeCurrent :=
    revSatCurrent
      * (Real.exp (C.q * (voltage + currentPrediction + C.rSeries)
          / (C.k * cellTemperature)) - 1)
      - (voltage + currentPrediction * C.rSeries) / C.rShunt
  let right := PVCurrent - diodeCurrent
  (left - right) ^ 2

/-- The while loop of PVCellNonideal.getCurrent stops at candidate `j`
exactly when `j` is the first positive candidate whose residual fails to
be strictly smaller than its predecessor's (the loop keeps `decreasing`
true while `difference - newResidual > 0`). -/
def stopsAt (r : ℕ → ℝ) (j : ℕ) : Prop :=
  1 ≤ j ∧ r (j - 1) ≤ r j ∧ ∀ i, 1 ≤ i → i < j → r i < r (i - 1)

/-- The while loop of PVCellNonideal.getCurrent terminates: some positive
candidate has a residual at least as large as its predecessor's. -/
def solverTerminates (r : ℕ → ℝ) : Prop :=
  ∃ j, 1 ≤ j ∧ r (j - 1) ≤ r j

/-- The candidate number at which the while loop of
PVCellNonideal.getCurrent stops: the least positive `j` whose residual is
at least its predecessor's (0 when the loop never stops, a modelling
artifact outside solverTerminates). -/
noncomputable def solverStop (r : ℕ → ℝ) : ℕ :=
  sInf {j | 1 ≤ j ∧ r (j - 1) ≤ r j}

/-- Embedding of PVCellNonideal.getCurrent (PVCellNonideal.py, lines
36-117): run the solver loop to its stopping candidate and return that
candidate current (`stop * 0.001`, the value of `currentPrediction` when
the loop exits) multiplied by the calibration constant 10 from line 117. -/
noncomputable def PVCellNonideal.getCurrent (C : CellConsts)
    (voltage irradiance temperature : ℝ) : ℝ :=
  (solverStop (PVCellNonideal.residual C voltage irradiance temperature) : ℝ)
    * 0.001 * 10

/-- Modelled from the spec: the spec's description of the solver return
value, "stop at the first increment where the residual fails to decrease,
and return the candidate from the previous step", multiplied by the
calibration constant 10.  Stated for comparison with the source's
PVCellNonideal.getCurrent, which returns the candidate of the stopping
step itself. -/
noncomputable def PVCellNonideal.getCurrentSpec (C : CellConsts)
    (voltage irradiance temperature : ℝ) : ℝ :=
  ((solverStop (PVCellNonideal.residual C voltage irradiance temperature) : ℝ)
      - 1) * 0.001 * 10

/-- Embedding of numpy's arange(0.0, stop, step) over the reals: the
points `k * step` for `k` below the ceiling of `stop / step` (numpy's
length formula); empty when `stop / step` is not positive. -/
noncomputable def arange (stop step : ℝ) : List ℝ :=
  (List.range (Nat.ceil (stop / step))).map (fun k : ℕ => (k : ℝ) * step)

/-- Embedding of PVCellNonideal.getCellIV (PVCellNonideal.py, lines
169-202): a resolution that is not positive is replaced by
MIN_RESOLUTION, the voltage axis is swept by numpy's arange from 0 below
MAX_VOLTAGE, and a (voltage, current) pair is kept exactly when its
current is nonnegative.  The current at each point comes from
getCurrentLookup, whose Lookup class is not among the provided sources;
modelled from the spec ("rounds inputs to the table's resolution and
performs an exact-match retrieval") as an arbitrary total function `lk`
of the three inputs. -/
noncomputable def PVCellNonideal.getCellIV (C : CellConsts)
    (lk : ℝ → ℝ → ℝ → ℝ) (resolution irradiance temperature : ℝ) :
    List (ℝ × ℝ) :=
  let res := if resolution ≤ 0 then C.MIN_RESOLUTION else resolution
  ((arange C.MAX_VOLTAGE res).map
      (fun voltage => (voltage, lk voltage irradiance temperature))).filter
    (fun p => decide (0 ≤ p.2))

/-- Embedding of the Stride state (Stride.py): the two configuration
fields set in the constructor, the five history fields, and the two
fields reinitialised by setup. -/
structure Stride where
  strideType : String
  minStride : ℝ
  vOld : ℝ
  iOld : ℝ
  pOld : ℝ
  irrOld : ℝ
  tOld : ℝ
  VMPP : ℝ
  error : ℝ

/-- Embedding of Stride.__init__ (Stride.py, lines 26-52): stores the
configuration and zeroes the five history fields. -/
def Stride.init (strideType : String) (minStride VMPP error : ℝ) : Stride :=
  { strideType := strideType, minStride := minStride,
    vOld := 0, iOld := 0, pOld := 0, irrOld := 0, tOld := 0,
    VMPP := VMPP, error := error }

/-- Embedding of Stride.setup (Stride.py, lines 54-68): reinitialises
VMPP and error, leaving everything else untouched. -/
def Stride.setup (s : Stride) (VMPP error : ℝ) : Stride :=
  { s with VMPP := VMPP, error := error }

/-- Embedding of Stride.getStride (Stride.py, lines 70-104): the base
calculator ignores its inputs and its history and returns the fixed
minimum stride, mutating nothing. -/
def Stride.getStride (s : Stride)
    (arrVoltage arrCurrent irradiance temperature : ℝ) : ℝ :=
  s.minStride

/-- Embedding of Stride.reset (Stride.py, lines 106-114): zeroes the five
history fields, leaving the configuration untouched. -/
def Stride.reset (s : Stride) : Stride :=
  { s with vOld := 0, iOld := 0, pOld := 0, irrOld := 0, tOld := 0 }

/-- The three MPPT algorithm variants reachable from MPPT.setupModel
(MPPT.py, lines 77-82), each holding the constructor arguments the
dispatch passes it.  The classes VoltageSweep, GlobalPando and
GlobalAlgorithm themselves live outside the provided sources; modelled
from the spec, which describes them as variants that record the model
tag and the stride type for the read-only accessors. -/
inductive MPPTModel where
  | voltageSweep (numCells : ℕ) (modelType strideType : String)
  | globalPandO (numCells : ℕ) (modelType strideType : String)
  | globalAlgorithm (numCells : ℕ) (modelType strideType : String)
deriving DecidableEq

/-- Modelled from the spec: getMPPTType of a variant reports its stored
model tag (the accessors "report the active variant tags", spec 4.5);
the variant classes are outside the provided sources. -/
def MPPTModel.getMPPTType : MPPTModel → String
  | .voltageSweep _ modelType _ => modelType
  | .globalPandO _ modelType _ => modelType
  | .globalAlgorithm _ modelType _ => modelType

/-- Modelled from the spec: getStrideType of a variant reports its stored
stride tag; the variant classes are outside the provided sources. -/
def MPPTModel.getStrideType : MPPTModel → String
  | .voltageSweep _ _ strideType => strideType
  | .globalPandO _ _ strideType => strideType
  | .globalAlgorithm _ _ strideType => strideType

/-- Embedding of the MPPT wrapper state (MPPT.py): the single `_model`
field, None before the first setupModel call. -/
structure MPPT where
  model : Option MPPTModel

/-- Embedding of MPPT.__init__ (MPPT.py, lines 38-39): the model starts
as None. -/
def MPPT.init : MPPT := ⟨none⟩

/-- The variant selection of MPPT.setupModel (MPPT.py, lines 77-82):
"Voltage Sweep" builds VoltageSweep, "Default" builds GlobalPando, and
every other tag falls into the else branch building GlobalAlgorithm. -/
def MPPT.selectModel (numCells : ℕ) (modelType strideType : String) :
    MPPTModel :=
  if modelType = "Voltage Sweep" then
    .voltageSweep numCells modelType strideType
  else if modelType = "Default" then
    .globalPandO numCells modelType strideType
  else
    .globalAlgorithm numCells modelType strideType

/-- Embedding of MPPT.setupModel (MPPT.py, lines 42-82): any existing
model is reset and then discarded, and the wrapper ends up holding the
freshly selected variant. -/
def MPPT.setupModel (m : MPPT) (numCells : ℕ)
    (modelType strideType : String) : MPPT :=
  ⟨some (MPPT.selectModel numCells modelType strideType)⟩

/-- Embedding of MPPT.reset (MPPT.py, lines 84-89): reset the held model
in place when there is one, do nothing otherwise.  The variants' own
reset methods are outside the provided sources, so the in-place reset is
abstracted as a function `g` on variants. -/
def MPPT.reset (g : MPPTModel → MPPTModel) (m : MPPT) : MPPT :=
  ⟨m.model.map g⟩

/-- Embedding of MPPT.getReferenceVoltage (MPPT.py, lines 91-94): the
wrapper dereferences its model, so the call only produces a value when a
model is present (dereferencing None raises).  The variants' algorithms
are outside the provided sources and are abstracted as a function `f`. -/
def MPPT.getReferenceVoltage (f : MPPTModel → ℝ → ℝ → ℝ → ℝ → ℝ)
    (m : MPPT) (arrVoltage arrCurrent irradiance temperature : ℝ) :
    Option ℝ :=
  m.model.map (fun mod => f mod arrVoltage arrCurrent irradiance temperature)

/-- Embedding of MPPT.getMPPTType (MPPT.py, lines 96-104): dereferences
the model, failing (None) when no model has been set up. -/
def MPPT.getMPPTType (m : MPPT) : Option String :=
  m.model.map MPPTModel.getMPPTType

/-- Embedding of MPPT.getStrideType (MPPT.py, lines 106-114):
dereferences the model, failing (None) when no model has been set up. -/
def MPPT.getStrideType (m : MPPT) : Option String :=
  m.model.map MPPTModel.getStrideType

/-- Modelled from the spec: the spec's error-handling requirement for the
MPPT factory ("Invalid CellModel/MPPT tag: fail fast with a descriptive
configuration error; never silently default"), stated as a fallible
selection for comparison with the source's MPPT.selectModel. -/
def MPPT.selectModelSpec (numCells : ℕ) (modelType strideType : String) :
    Except String MPPTModel :=
  if modelType = "Voltage Sweep" then
    .ok (.voltageSweep numCells modelType strideType)
  else if modelType = "Default" then
    .ok (.globalPandO numCells modelType strideType)
  else
    .error ("Unrecognized MPPT model type: " ++ modelType)

/-- Concrete cell constants used for the solver examples: reference
irradiance 1, reference temperature 1 K, reference short-circuit current
10, reference open-circuit voltage 0, no series resistance, unit shunt
resistance, and unit Boltzmann and charge constants, so that the solver
residual at cell temperature 1 K reduces to an explicit exponential. -/
noncomputable def cellConstsA : CellConsts :=
  { refIrrad := 1, refTemp := 1, refSCCurrent := 10, refOCVoltage := 0,
    rSeries := 0, rShunt := 1, k := 1, q := 1,
    MAX_VOLTAGE := 0.8, MIN_RESOLUTION := 0.001 }

/-- Concrete cell constants used for the divergence example: unit
reference values, reference temperature -1 K, unit series and shunt
resistance, so that at cell temperature -1 K the exponential decays and
the solver residual decreases forever. -/
noncomputable def cellConstsB : CellConsts :=
  { refIrrad := 1, refTemp := -1, refSCCurrent := 1, refOCVoltage := 0,
    rSeries := 1, rShunt := 1, k := 1, q := 1,
    MAX_VOLTAGE := 0.8, MIN_RESOLUTION := 0.001 }

/-- Concrete cell constants for the curve witnesses: a 2 V sweep range
with a 1 V minimum resolution, all electrical constants 1. -/
noncomputable def cellConstsW : CellConsts :=
  { refIrrad := 1, refTemp := 1, refSCCurrent := 1, refOCVoltage := 1,
    rSeries := 1, rShunt := 1, k := 1, q := 1,
    MAX_VOLTAGE := 2, MIN_RESOLUTION := 1 }

/-- Constant lookup table used for the curve witnesses: every query
returns current 1. -/
def lookupW : ℝ → ℝ → ℝ → ℝ := fun _ _ _ => 1

theorem solverStop_eq_of_stopsAt {r : ℕ → ℝ} {j : ℕ} (h : stopsAt r j) :
    solverStop r = j := by
  obtain ⟨hj1, hjle, hmin⟩ := h
  have hmem : j ∈ {j | 1 ≤ j ∧ r (j - 1) ≤ r j} := ⟨hj1, hjle⟩
  refine le_antisymm (Nat.sInf_le hmem) ?_
  by_contra hlt
  push_neg at hlt
  have hs := Nat.sInf_mem (s := {j | 1 ≤ j ∧ r (j - 1) ≤ r j}) ⟨j, hmem⟩
  exact absurd hs.2 (not_le.mpr (hmin _ hs.1 hlt))

theorem residualA_eq (j : ℕ) :
    PVCellNonideal.residual cellConstsA 1 1 (-272.15) j
      = ((j : ℝ) * 0.001 - (21 - 10 * Real.exp (1 + (j : ℝ) * 0.001))) ^ 2 := by
  have h10 : Real.exp (Real.log 10) = (10 : ℝ) := Real.exp_log (by norm_num)
  simp only [PVCellNonideal.residual, cellConstsA]
  norm_num [Real.log_one, h10]
  ring_nf

theorem stopsAtA :
    stopsAt (PVCellNonideal.residual cellConstsA 1 1 (-272.15)) 1 := by
  refine ⟨le_refl 1, ?_, fun i h1 hlt => absurd (lt_of_le_of_lt h1 hlt) (by omega)⟩
  rw [residualA_eq, residualA_eq]
  have hgt : (2.7182818283 : ℝ) < Real.exp 1 := Real.exp_one_gt_d9
  have hmono : Real.exp 1 < Real.exp (1 + (1 : ℝ) * 0.001) :=
    Real.exp_lt_exp.mpr (by norm_num)
  have h2 : ((0 : ℕ) : ℝ) * 0.001 - (21 - 10 * Real.exp (1 + ((0 : ℕ) : ℝ) * 0.001))
      = 10 * Real.exp 1 - 21 := by
    push_cast
    ring_nf
  rw [h2]
  refine sq_le_sq' ?_ ?_ <;> push_cast <;> nlinarith

theorem residualB_eq (j : ℕ) :
    PVCellNonideal.residual cellConstsB (-12) 1 (-274.15) j
      = (10 + Real.exp (11 - (j : ℝ) * 0.001)) ^ 2 := by
  have h1 : Real.exp (Real.log 1) = (1 : ℝ) := Real.exp_log (by norm_num)
  simp only [PVCellNonideal.residual, cellConstsB]
  norm_num [Real.log_one]
  ring_nf

theorem solverDivergesB :
    ¬ solverTerminates (PVCellNonideal.residual cellConstsB (-12) 1 (-274.15)) := by
  rintro ⟨j, hj1, hle⟩
  rw [residualB_eq, residualB_eq] at hle
  have hcast : ((j - 1 : ℕ) : ℝ) = (j : ℝ) - 1 := by
    push_cast [hj1]
    ring
  rw [hcast] at hle
  have hjR : (1 : ℝ) ≤ (j : ℝ) := by exact_mod_cast hj1
  have hexp : Real.exp (11 - (j : ℝ) * 0.001)
      < Real.exp (11 - ((j : ℝ) - 1) * 0.001) :=
    Real.exp_lt_exp.mpr (by nlinarith)
  have hp1 : (0 : ℝ) < Real.exp (11 - (j : ℝ) * 0.001) := Real.exp_pos _
  have hp2 : (0 : ℝ) < Real.exp (11 - ((j : ℝ) - 1) * 0.001) := Real.exp_pos _
  nlinarith

/-- C1 (amended): for every cell calibration and every input, the Nonideal
getCurrent solver starts its candidate at 0, advances it in fixed 0.001
increments while the squared residual strictly decreases, and when the
loop stops at candidate number j (the first increment whose residual fails
to decrease), it returns that stopping candidate j * 0.001 - not the
candidate of the previous step - multiplied by the calibration constant
10. -/
theorem nonideal_getCurrent_returns_stopping_candidate
    (C : CellConsts) (v G T : ℝ) (j : ℕ)
    (h : stopsAt (PVCellNonideal.residual C v G T) j) :
    PVCellNonideal.getCurrent C v G T = ((j : ℝ) * 0.001) * 10 := by
  unfold PVCellNonideal.getCurrent
  rw [solverStop_eq_of_stopsAt h]

/-- C1 witness: at the calibration cellConstsA with inputs voltage 1,
irradiance 1, temperature -272.15 the solver stops at its first candidate
and getCurrent returns 1 * 0.001 * 10. -/
theorem nonideal_getCurrent_returns_stopping_candidate_witness :
    stopsAt (PVCellNonideal.residual cellConstsA 1 1 (-272.15)) 1 ∧
      PVCellNonideal.getCurrent cellConstsA 1 1 (-272.15)
        = ((1 : ℕ) : ℝ) * 0.001 * 10 :=
  ⟨stopsAtA,
    nonideal_getCurrent_returns_stopping_candidate cellConstsA 1 1 (-272.15) 1
      stopsAtA⟩

/-- C1 counterexample: at the calibration cellConstsA with inputs voltage
1, irradiance 1, temperature -272.15 the solver stops at its first
candidate; the source returns 0.001 * 10 = 0.01, while the spec's
"candidate from the previous step" reading would return 0, and the two
differ. -/
theorem nonideal_getCurrent_prev_step_counterexample :
    PVCellNonideal.getCurrent cellConstsA 1 1 (-272.15) = 0.01 ∧
      PVCellNonideal.getCurrentSpec cellConstsA 1 1 (-272.15) = 0 ∧
      (0.01 : ℝ) ≠ 0 := by
  have hstop := solverStop_eq_of_stopsAt stopsAtA
  refine ⟨?_, ?_, by norm_num⟩
  · unfold PVCellNonideal.getCurrent
    rw [hstop]
    norm_num
  · unfold PVCellNonideal.getCurrentSpec
    rw [hstop]
    norm_num

/-- C2: at the calibration cellConstsB with inputs voltage -12, irradiance
1, temperature -274.15 the squared residual of the Nonideal getCurrent
solver is strictly decreasing at every step, so its while loop, which has
no iteration bound, never stops: non-convergence is not surfaced as an
error condition (nor as any result at all). -/
theorem nonideal_solver_unbounded_nonconvergence :
    ¬ solverTerminates
        (PVCellNonideal.residual cellConstsB (-12) 1 (-274.15)) :=
  solverDivergesB

/-- C3: for both the Ideal and the Nonideal model, a voltage of exactly 0
is replaced by 0.001 and an irradiance of exactly 0 is replaced by 0.001
before the body of the computation (which contains every logarithm and
division) is evaluated, and inputs that are not exactly zero reach the
body unmodified. -/
theorem getCurrent_clamps_zero_inputs (C : CellConsts) (v G T : ℝ) :
    (PVCellIdeal.getCurrent C v G T
        = PVCellIdeal.getCurrentBody C (if v = 0 then 0.001 else v)
            (if G = 0 then 0.001 else G) T) ∧
    (∀ j, PVCellNonideal.residual C v G T j
        = PVCellNonideal.residualBody C (if v = 0 then 0.001 else v)
            (if G = 0 then 0.001 else G) T j) ∧
    ((if (0 : ℝ) = 0 then (0.001 : ℝ) else 0) = 0.001) ∧
    (v ≠ 0 → (if v = 0 then (0.001 : ℝ) else v) = v) ∧
    (G ≠ 0 → (if G = 0 then (0.001 : ℝ) else G) = G) :=
  ⟨rfl, fun _ => rfl, by norm_num, fun hv => if_neg hv, fun hG => if_neg hG⟩

/-- C3 witness: at voltage 1 and irradiance 1 the clamps are the identity
and the Ideal current equals the unclamped body at the same inputs. -/
theorem getCurrent_clamps_zero_inputs_witness :
    PVCellIdeal.getCurrent cellConstsA 1 1 0
        = PVCellIdeal.getCurrentBody cellConstsA 1 1 0 ∧
      (if (1 : ℝ) = 0 then (0.001 : ℝ) else 1) = 1 := by
  have h := getCurrent_clamps_zero_inputs cellConstsA 1 1 0
  have h1 := h.1
  rw [if_neg (one_ne_zero (α := ℝ))] at h1
  exact ⟨h1, h.2.2.2.1 (one_ne_zero (α := ℝ))⟩

/-- C4 (amended): every tag other than "Voltage Sweep" and "Default"
makes setupModel silently construct the generic GlobalAlgorithm fallback
variant carrying that tag; setupModel has no failure path. -/
theorem setupModel_unknown_tag_fallback (m : MPPT) (n : ℕ) (tag s : String)
    (h1 : tag ≠ "Voltage Sweep") (h2 : tag ≠ "Default") :
    (MPPT.setupModel m n tag s).model
      = some (MPPTModel.globalAlgorithm n tag s) := by
  simp [MPPT.setupModel, MPPT.selectModel, h1, h2]

/-- C4 fallback witness: the unrecognized tag "Foo" yields the generic
GlobalAlgorithm model. -/
theorem setupModel_unknown_tag_fallback_witness :
    ("Foo" : String) ≠ "Voltage Sweep" ∧ ("Foo" : String) ≠ "Default" ∧
      (MPPT.setupModel MPPT.init 1 "Foo" "Fixed").model
        = some (MPPTModel.globalAlgorithm 1 "Foo" "Fixed") :=
  ⟨by decide, by decide,
    setupModel_unknown_tag_fallback MPPT.init 1 "Foo" "Fixed" (by decide)
      (by decide)⟩

/-- C4 counterexample: the tag "Bogus" is recognized by neither branch,
yet setupModel silently constructs the generic GlobalAlgorithm fallback
model, where the spec's fail-fast selection reports a configuration
error. -/
theorem setupModel_unknown_tag_counterexample :
    (MPPT.setupModel MPPT.init 1 "Bogus" "Fixed").model
        = some (MPPTModel.globalAlgorithm 1 "Bogus" "Fixed") ∧
      ("Bogus" : String) ≠ "Voltage Sweep" ∧
      ("Bogus" : String) ≠ "Default" ∧
      MPPT.selectModelSpec 1 "Bogus" "Fixed"
        = Except.error "Unrecognized MPPT model type: Bogus" :=
  ⟨by decide, by decide, by decide, rfl⟩

/-- C5: the setupModel tag dispatch maps "Voltage Sweep" to the
voltage-sweep variant, "Default" to the GlobalPandO hybrid variant, and
any other non-empty tag to the generic GlobalAlgorithm variant. -/
theorem setupModel_tag_dispatch (m : MPPT) (n : ℕ) (s : String) :
    (MPPT.setupModel m n "Voltage Sweep" s).model
        = some (MPPTModel.voltageSweep n "Voltage Sweep" s) ∧
      (MPPT.setupModel m n "Default" s).model
        = some (MPPTModel.globalPandO n "Default" s) ∧
      (∀ tag : String, tag ≠ "Voltage Sweep" → tag ≠ "Default" → tag ≠ "" →
        (MPPT.setupModel m n tag s).model
          = some (MPPTModel.globalAlgorithm n tag s)) := by
  refine ⟨rfl, rfl, fun tag h1 h2 _ => ?_⟩
  simp [MPPT.setupModel, MPPT.selectModel, h1, h2]

/-- C5 witness: the three dispatch branches at concrete tags. -/
theorem setupModel_tag_dispatch_witness :
    (MPPT.setupModel MPPT.init 1 "Voltage Sweep" "Fixed").model
        = some (MPPTModel.voltageSweep 1 "Voltage Sweep" "Fixed") ∧
      (MPPT.setupModel MPPT.init 1 "Default" "Fixed").model
        = some (MPPTModel.globalPandO 1 "Default" "Fixed") ∧
      (MPPT.setupModel MPPT.init 1 "Sweep2" "Fixed").model
        = some (MPPTModel.globalAlgorithm 1 "Sweep2" "Fixed") := by
  have h := setupModel_tag_dispatch MPPT.init 1 "Fixed"
  exact ⟨h.1, h.2.1, h.2.2 "Sweep2" (by decide) (by decide) (by decide)⟩

/-- C6: for every positive resolution, irradiance and temperature, the
Nonideal getCellIV curve lists its pairs with strictly increasing
voltages; every retained pair sits on the arithmetic progression
k * resolution starting at 0, stays below MAX_VOLTAGE, and carries its
nonnegative looked-up current; and every grid point below MAX_VOLTAGE
whose looked-up current is nonnegative is retained (only negative-current
points are discarded). -/
theorem getCellIV_curve_shape (C : CellConsts) (lk : ℝ → ℝ → ℝ → ℝ)
    (resolution irradiance temperature : ℝ)
    (hres : 0 < resolution) (hirr : 0 < irradiance) (hT : 0 < temperature) :
    List.Pairwise (fun p q => p.1 < q.1)
        (PVCellNonideal.getCellIV C lk resolution irradiance temperature) ∧
      (∀ p ∈ PVCellNonideal.getCellIV C lk resolution irradiance temperature,
        (∃ k : ℕ, p.1 = (k : ℝ) * resolution) ∧ p.1 < C.MAX_VOLTAGE ∧
          p.2 = lk p.1 irradiance temperature ∧ 0 ≤ p.2) ∧
      (∀ k : ℕ, (k : ℝ) * resolution < C.MAX_VOLTAGE →
        0 ≤ lk ((k : ℝ) * resolution) irradiance temperature →
        ((k : ℝ) * resolution, lk ((k : ℝ) * resolution) irradiance temperature)
          ∈ PVCellNonideal.getCellIV C lk resolution irradiance temperature) := by
  have hif : (if resolution ≤ 0 then C.MIN_RESOLUTION else resolution)
      = resolution := if_neg (not_le.mpr hres)
  simp only [PVCellNonideal.getCellIV, hif]
  have harange : List.Pairwise (fun a b : ℝ => a < b)
      (arange C.MAX_VOLTAGE resolution) := by
    rw [arange, List.pairwise_map]
    refine List.Pairwise.imp ?_ (List.pairwise_lt_range _)
    intro a b hab
    exact mul_lt_mul_of_pos_right (by exact_mod_cast hab) hres
  refine ⟨?_, ?_, ?_⟩
  · refine List.Pairwise.sublist (List.filter_sublist _) ?_
    exact List.Pairwise.map _ (fun a b hab => hab) harange
  · intro p hp
    rw [List.mem_filter] at hp
    obtain ⟨hpmem, hppos⟩ := hp
    rw [List.mem_map] at hpmem
    obtain ⟨v, hvmem, rfl⟩ := hpmem
    rw [arange, List.mem_map] at hvmem
    obtain ⟨k, hkmem, rfl⟩ := hvmem
    rw [List.mem_range] at hkmem
    have hklt : (k : ℝ) < C.MAX_VOLTAGE / resolution := Nat.lt_ceil.mp hkmem
    refine ⟨⟨k, rfl⟩, (lt_div_iff₀ hres).mp hklt, rfl, ?_⟩
    exact of_decide_eq_true hppos
  · intro k hk hcur
    rw [List.mem_filter]
    refine ⟨?_, decide_eq_true hcur⟩
    rw [List.mem_map]
    refine ⟨(k : ℝ) * resolution, ?_, rfl⟩
    rw [arange, List.mem_map]
    refine ⟨k, ?_, rfl⟩
    rw [List.mem_range]
    exact Nat.lt_ceil.mpr ((lt_div_iff₀ hres).mpr hk)

/-- C6 witness: with a 2 V range, stride 1 and a constant unit lookup the
hypotheses hold at resolution 1, irradiance 1000, temperature 25, and the
resulting curve is sorted by strictly increasing voltage. -/
theorem getCellIV_curve_shape_witness :
    (0 : ℝ) < 1 ∧ (0 : ℝ) < 1000 ∧ (0 : ℝ) < 25 ∧
      List.Pairwise (fun p q => p.1 < q.1)
        (PVCellNonideal.getCellIV cellConstsW lookupW 1 1000 25) :=
  ⟨by norm_num, by norm_num, by norm_num,
    (getCellIV_curve_shape cellConstsW lookupW 1 1000 25 (by norm_num)
        (by norm_num) (by norm_num)).1⟩

/-- C8: a resolution that is zero or negative is replaced by the model's
MIN_RESOLUTION, and the call returns exactly the curve of a direct call
with resolution MIN_RESOLUTION. -/
theorem getCellIV_nonpositive_resolution (C : CellConsts)
    (lk : ℝ → ℝ → ℝ → ℝ) (resolution irradiance temperature : ℝ)
    (h : resolution ≤ 0) :
    PVCellNonideal.getCellIV C lk resolution irradiance temperature
      = PVCellNonideal.getCellIV C lk C.MIN_RESOLUTION irradiance
          temperature := by
  simp only [PVCellNonideal.getCellIV, if_pos h]
  by_cases hm : C.MIN_RESOLUTION ≤ 0
  · rw [if_pos hm]
  · rw [if_neg hm]

/-- C8 witness: at resolution 0 the curve agrees with the curve at the
model's MIN_RESOLUTION. -/
theorem getCellIV_nonpositive_resolution_witness :
    (0 : ℝ) ≤ 0 ∧
      PVCellNonideal.getCellIV cellConstsW lookupW 0 1000 25
        = PVCellNonideal.getCellIV cellConstsW lookupW
            cellConstsW.MIN_RESOLUTION 1000 25 :=
  ⟨le_refl 0,
    getCellIV_nonpositive_resolution cellConstsW lookupW 0 1000 25
      (le_refl 0)⟩

/-- C7: resetting a Stride calculator reproduces a freshly constructed
calculator with the same configuration, so the next getStride call
returns the same value as on a fresh calculator given identical inputs;
in particular all five history fields are zero after reset. -/
theorem stride_reset_idempotent (s : Stride) (a b c d : ℝ) :
    s.reset = Stride.init s.strideType s.minStride s.VMPP s.error ∧
      (s.reset).getStride a b c d
        = (Stride.init s.strideType s.minStride s.VMPP s.error).getStride
            a b c d ∧
      (s.reset).vOld = 0 ∧ (s.reset).iOld = 0 ∧ (s.reset).pOld = 0 ∧
      (s.reset).irrOld = 0 ∧ (s.reset).tOld = 0 :=
  ⟨rfl, rfl, rfl, rfl, rfl, rfl, rfl⟩

/-- C9: reset leaves the configuration fields strideType, minStride, VMPP
and error unchanged, so configuration set at construction or by setup
survives every reset; only the five history fields are written. -/
theorem stride_reset_preserves_config (s : Stride) (V E : ℝ) :
    (s.reset).strideType = s.strideType ∧
      (s.reset).minStride = s.minStride ∧
      (s.reset).VMPP = s.VMPP ∧
      (s.reset).error = s.error ∧
      ((s.setup V E).reset).VMPP = V ∧
      ((s.setup V E).reset).error = E :=
  ⟨rfl, rfl, rfl, rfl, rfl, rfl⟩

/-- C10: before the first setupModel call the wrapper holds no model:
getReferenceVoltage, getMPPTType and getStrideType all fail to produce a
value (the source dereferences the absent model and raises, modelled as
none), while reset succeeds and leaves the engine unchanged. -/
theorem mppt_uninitialized_behavior :
    MPPT.init.model = none ∧
      (∀ (f : MPPTModel → ℝ → ℝ → ℝ → ℝ → ℝ) (a b c d : ℝ),
        MPPT.getReferenceVoltage f MPPT.init a b c d = none) ∧
      MPPT.getMPPTType MPPT.init = none ∧
      MPPT.getStrideType MPPT.init = none ∧
      (∀ g, MPPT.reset g MPPT.init = MPPT.init) :=
  ⟨rfl, fun _ _ _ _ _ => rfl, rfl, rfl, fun _ => rfl⟩
